import Mathlib

/-!
Verification of the mesh-thumbnail generator against its specification.

The definitions below are a shallow embedding of the Rust sources
`src/parse_mesh.rs` and `src/lib.rs`:
pure parsing logic becomes Lean functions, the line-oriented scanners become
explicit state-passing folds, fallible code returns `Except`/`Option`, and the
regular expressions of the source (whose character classes are disjoint from
the literal characters that follow them, so greedy matching is deterministic)
become hand-rolled scanners with leftmost-match search.  Floating point
coordinates are represented as exact rationals: every claim under study is
about which values are copied where, never about rounding.
-/

namespace MeshThumb

/-- Characters of a string literal. -/
def chars (s : String) : List Char := s.data

/-- Error type of the mesh parsers (`enum ParseError` in src/parse_mesh.rs). -/
inductive PError where
  | readError (msg : String)
  | parseError (msg : String)
  | meshConvertError (msg : String)
deriving DecidableEq, Repr

/-- Character class of the regex fragment `[\d.]` used by the G-code scanner. -/
def isDigitDot (c : Char) : Bool := c.isDigit || c == '.'

/-- Character class of the regex fragment `\s` as it occurs inside a line
(newlines cannot occur, the reader iterates line by line). -/
def isWs (c : Char) : Bool := c == ' ' || c == '\t' || c == '\r'

/-- Leftmost-match regex search: try the matcher at every suffix, left to right. -/
def scanFor (f : List Char → Option α) : List Char → Option α
  | [] => f []
  | c :: cs => (f (c :: cs)).orElse (fun _ => scanFor f cs)

/-- Match a nonempty greedy run of characters satisfying `p` (the regex `p+`);
returns the run and the rest. -/
def takeRun (p : Char → Bool) (l : List Char) : Option (List Char × List Char) :=
  let d := l.takeWhile p
  if d.isEmpty then none else some (d, l.dropWhile p)

/-- Match `X([\d.]+)\s+Y([\d.]+)\s+E` at the start of the suffix
(`regex_xy` of `parse_gcode_inner`); returns the two captures. -/
def matchXYEAt (l : List Char) : Option (List Char × List Char) :=
  match l with
  | 'X' :: r =>
    match takeRun isDigitDot r with
    | none => none
    | some (d1, r1) =>
      match takeRun isWs r1 with
      | none => none
      | some (_, r2) =>
        match r2 with
        | 'Y' :: r3 =>
          match takeRun isDigitDot r3 with
          | none => none
          | some (d2, r4) =>
            match takeRun isWs r4 with
            | none => none
            | some (_, r5) =>
              match r5 with
              | 'E' :: _ => some (d1, d2)
              | _ => none
        | _ => none
  | _ => none

/-- Match `X([\d.]+)\s+Y([\d.]+)` at the start of the suffix
(`regex_xy_no_extrusion` of `parse_gcode_inner`). -/
def matchXYAt (l : List Char) : Option (List Char × List Char) :=
  match l with
  | 'X' :: r =>
    match takeRun isDigitDot r with
    | none => none
    | some (d1, r1) =>
      match takeRun isWs r1 with
      | none => none
      | some (_, r2) =>
        match r2 with
        | 'Y' :: r3 =>
          match takeRun isDigitDot r3 with
          | none => none
          | some (d2, _) => some (d1, d2)
        | _ => none
  | _ => none

/-- Match `Z([\d.]+)` at the start of the suffix (`regex_z` of `parse_gcode_inner`). -/
def matchZAt (l : List Char) : Option (List Char) :=
  match l with
  | 'Z' :: r =>
    match takeRun isDigitDot r with
    | none => none
    | some (d, _) => some d
  | _ => none

/-- `regex_xy.captures(line)`. -/
def findXYE (l : List Char) : Option (List Char × List Char) := scanFor matchXYEAt l

/-- `regex_xy_no_extrusion.captures(line)`. -/
def findXY (l : List Char) : Option (List Char × List Char) := scanFor matchXYAt l

/-- `regex_z.captures(line)`. -/
def findZ (l : List Char) : Option (List Char) := scanFor matchZAt l

/-- Decimal value of a digit string. -/
def digitsVal (l : List Char) : ℕ := l.foldl (fun a c => 10 * a + (c.toNat - 48)) 0

/-- Rust `str::parse::<f32>` restricted to strings captured by `[\d.]+`: at most one
dot and at least one digit parse to the exact decimal value, anything else errors.
The f32 rounding of the original is immaterial to the claims under study. -/
def parseNum (s : List Char) : Option ℚ :=
  let ip := s.takeWhile Char.isDigit
  let r := s.dropWhile Char.isDigit
  match r with
  | [] => if ip.isEmpty then none else some (digitsVal ip : ℚ)
  | '.' :: fp =>
    if fp.all Char.isDigit && !(ip.isEmpty && fp.isEmpty) then
      some ((digitsVal ip : ℚ) + (digitsVal fp : ℚ) / ((10 : ℚ) ^ fp.length))
    else none
  | _ => none

/-- One collected toolpath point (struct `Point` in src/parse_mesh.rs). -/
structure GPoint where
  v : ℚ × ℚ × ℚ
  use_line : Bool
deriving DecidableEq, Repr

/-- Mutable state of the `parse_gcode_inner` line loop: the absolute position
`(last_x, last_y, last_z)` and the `position_unsafe` flag (here `pos_dirty`). -/
structure GState where
  x : ℚ
  y : ℚ
  z : ℚ
  pos_dirty : Bool
deriving DecidableEq, Repr

/-- `line.starts_with("G1") || line.starts_with("G0")`. -/
def startsG (l : List Char) : Bool :=
  match l with
  | 'G' :: '1' :: _ => true
  | 'G' :: '0' :: _ => true
  | _ => false

/-- One iteration of the line loop of `parse_gcode_inner`: the Z capture updates `z`
first, then an `X..Y..E` match emits the anchor (when the flag is set) and the drawn
point, else an `X..Y` match is a travel move that sets the flag.  A float-parse
failure aborts the whole parse (the `?` operator in the source). -/
def gstep (st : GState) (l : List Char) : Except PError (GState × List GPoint) :=
  if startsG l then
    match (match findZ l with
           | some zs => (parseNum zs).map (fun zv => { st with z := zv })
           | none => some st) with
    | none => .error (PError.parseError "invalid float literal")
    | some st1 =>
      match findXYE l with
      | some (sx, sy) =>
        match parseNum sx, parseNum sy with
        | some nx, some ny =>
          let anchor : List GPoint :=
            if st1.pos_dirty then [{ v := (-st1.x, st1.z, st1.y), use_line := false }] else []
          .ok ({ x := nx, y := ny, z := st1.z, pos_dirty := false },
               anchor ++ [{ v := (-nx, st1.z, ny), use_line := true }])
        | _, _ => .error (PError.parseError "invalid float literal")
      | none =>
        match findXY l with
        | some (sx, sy) =>
          match parseNum sx, parseNum sy with
          | some nx, some ny =>
            .ok ({ x := nx, y := ny, z := st1.z, pos_dirty := true }, [])
          | _, _ => .error (PError.parseError "invalid float literal")
        | none => .ok (st1, [])
  else .ok (st, [])

/-- The whole line loop: fold `gstep` over the lines, concatenating emitted points. -/
def gscan (st : GState) : List (List Char) → Except PError (GState × List GPoint)
  | [] => .ok (st, [])
  | l :: ls =>
    match gstep st l with
    | .error e => .error e
    | .ok (st1, ps) =>
      match gscan st1 ls with
      | .error e => .error e
      | .ok (st2, ps') => .ok (st2, ps ++ ps')

/-- Initial scanner state: `last_x = last_y = last_z = 0`, flag clear. -/
def initG : GState := { x := 0, y := 0, z := 0, pos_dirty := false }

/-- Tube segments generated by the geometry loop of `parse_gcode_inner`: for each
consecutive pair of collected points whose second is drawn, a cylinder is emitted
transformed from the first endpoint to the second.  The cylinder mesh itself comes
from the external `three_d` library; we record the endpoint pair handed to
`edge_transform`. -/
def segmentsOf (entries : List GPoint) : List ((ℚ × ℚ × ℚ) × (ℚ × ℚ × ℚ)) :=
  (entries.zip entries.tail).filterMap
    (fun pq => if pq.2.use_line then some (pq.1.v, pq.2.v) else none)

/-- `parse_gcode_inner`: scan the lines, fail when at most two points were
collected, else emit the drawn tube segments. -/
def parse_gcode_inner (lines : List (List Char)) :
    Except PError (List ((ℚ × ℚ × ℚ) × (ℚ × ℚ × ℚ))) :=
  match gscan initG lines with
  | .error e => .error e
  | .ok (_, entries) =>
    if entries.length ≤ 2 then
      .error (PError.parseError "Gcode file contains no move instructions")
    else .ok (segmentsOf entries)

/-- The spec's 3-segment example path, encoded as G-code: an extruding move placing
the start point at the origin, an extruding move to (1,0), a travel move to (1,1)
and an extruding move to (2,1). -/
def gcodeExample3 : List (List Char) :=
  [chars "G1 X0 Y0 E1", chars "G1 X1 Y0 E1", chars "G1 X1 Y1", chars "G1 X2 Y1 E1"]

/-- Z value a motion line leaves in the state: the parse of the Z capture when the Z
pattern matches, the old z otherwise (`none` = the whole parse aborts). -/
def zAfter (st : GState) (l : List Char) : Option ℚ :=
  match findZ l with
  | some zs => parseNum zs
  | none => some st.z

/-- Match the literal `pat` at the start of `l`; returns the rest of `l`. -/
def matchLit : List Char → List Char → Option (List Char)
  | [], l => some l
  | p :: ps, c :: cs => if c == p then matchLit ps cs else none
  | _ :: _, [] => none

/-- `str::contains(pat)`: substring test. -/
def containsStr (pat l : List Char) : Bool := (scanFor (matchLit pat) l).isSome

/-- Character class `[0-9A-Fa-f]`. -/
def isHexDigit (c : Char) : Bool :=
  c.isDigit || ('a' ≤ c && c ≤ 'f') || ('A' ≤ c && c ≤ 'F')

/-- Value of one hex digit. -/
def hexDigitVal (c : Char) : ℕ :=
  if c.isDigit then c.toNat - 48
  else if 'a' ≤ c && c ≤ 'f' then c.toNat - 87
  else c.toNat - 55

/-- Hex value of a hex-digit string. -/
def hexVal (l : List Char) : ℕ := l.foldl (fun a c => 16 * a + hexDigitVal c) 0

/-- Rust `str::parse::<usize>` on a digit string (usize is 64-bit here): overflow
past `usize::MAX` makes the parse fail. -/
def parseUsize (s : List Char) : Option ℕ :=
  if digitsVal s < 2 ^ 64 then some (digitsVal s) else none

/-- `three_d::Srgba` as produced by `Srgba::new_opaque` (alpha always 255). -/
structure Srgba where
  r : ℕ
  g : ℕ
  b : ℕ
  a : ℕ
deriving DecidableEq, Repr

/-- `parse_hex_color_to_srgba` of src/parse_mesh.rs: strip leading `#` characters,
require exactly six characters, decode the three channel bytes.  On the strings this
embedding feeds it (captures of the color regex) the per-byte
`u8::from_str_radix(.., 16)` of the source succeeds exactly when all six characters
are hex digits. -/
def parse_hex_color_to_srgba (hex : List Char) : Option Srgba :=
  let h := hex.dropWhile (fun c => c == '#')
  if h.length == 6 && h.all isHexDigit then
    some { r := hexVal (h.take 2), g := hexVal ((h.drop 2).take 2),
           b := hexVal ((h.drop 4).take 2), a := 255 }
  else none

/-- `struct VolumeInfo` of src/parse_mesh.rs. -/
structure VolumeInfo where
  first_triangle_id : ℕ
  last_triangle_id : ℕ
  color : Option Srgba
deriving DecidableEq, Repr

/-- 1-based extruder-color-table lookup with the validity guard of the source
(`ext > 0 && ext <= extruder_colors.len()`). -/
def extruderEntry (extruder_colors : List Srgba) (ext : ℕ) : Option Srgba :=
  if h : 0 < ext ∧ ext ≤ extruder_colors.length then
    some (extruder_colors.get ⟨ext - 1, by omega⟩)
  else none

/-- The color-resolution expression of `parse_slic3r_volumes` (it appears verbatim at
both places a volume is flushed): `current_color.or_else(||
current_extruder.or(object_extruder).and_then(lookup))`. -/
def resolve_color (current_color : Option Srgba) (current_extruder object_extruder : Option ℕ)
    (extruder_colors : List Srgba) : Option Srgba :=
  match current_color with
  | some c => some c
  | none =>
    match current_extruder.or object_extruder with
    | some ext => extruderEntry extruder_colors ext
    | none => none

/-- Modelled from the spec (claim C2's reading): a volume-level extruder that is zero
or out of the table's range falls back to the object-level extruder's table entry. -/
def resolve_color_claimed (current_color : Option Srgba)
    (current_extruder object_extruder : Option ℕ) (extruder_colors : List Srgba) :
    Option Srgba :=
  match current_color with
  | some c => some c
  | none =>
    match current_extruder with
    | some e =>
      match extruderEntry extruder_colors e with
      | some c => some c
      | none => (object_extruder.bind (extruderEntry extruder_colors))
    | none => object_extruder.bind (extruderEntry extruder_colors)

/-- The resolution rule the code implements, spelled out: the volume-level extruder,
when one was parsed, preempts the object-level one entirely; the single table lookup
yields no color when that extruder is zero or out of range. -/
def resolve_color_amended (current_color : Option Srgba)
    (current_extruder object_extruder : Option ℕ) (extruder_colors : List Srgba) :
    Option Srgba :=
  match current_color with
  | some c => some c
  | none =>
    match current_extruder with
    | some e => extruderEntry extruder_colors e
    | none =>
      match object_extruder with
      | some e => extruderEntry extruder_colors e
      | none => none

/-- Match `<object id="(\d+)"` at the start of the suffix. -/
def matchObjectIdAt (l : List Char) : Option (List Char) := do
  let r ← matchLit (chars "<object id=\"") l
  let (d, r1) ← takeRun Char.isDigit r
  match r1 with
  | '"' :: _ => some d
  | _ => none

/-- Match `<volume firstid="(\d+)" lastid="(\d+)">` at the start of the suffix. -/
def matchVolumeAt (l : List Char) : Option (List Char × List Char) := do
  let r ← matchLit (chars "<volume firstid=\"") l
  let (d1, r1) ← takeRun Char.isDigit r
  let r2 ← matchLit (chars "\" lastid=\"") r1
  let (d2, r3) ← takeRun Char.isDigit r2
  let _ ← matchLit (chars "\">") r3
  some (d1, d2)

/-- Match `<metadata type="object" key="extruder" value="(\d+)"` at the suffix start. -/
def matchObjectExtruderAt (l : List Char) : Option (List Char) := do
  let r ← matchLit (chars "<metadata type=\"object\" key=\"extruder\" value=\"") l
  let (d, r1) ← takeRun Char.isDigit r
  match r1 with
  | '"' :: _ => some d
  | _ => none

/-- Match `<metadata type="volume" key="extruder" value="(\d+)"` at the suffix start. -/
def matchVolumeExtruderAt (l : List Char) : Option (List Char) := do
  let r ← matchLit (chars "<metadata type=\"volume\" key=\"extruder\" value=\"") l
  let (d, r1) ← takeRun Char.isDigit r
  match r1 with
  | '"' :: _ => some d
  | _ => none

/-- Match `<metadata type="volume" key="color" value="(#[0-9A-Fa-f]\x7b6\x7d)"` at the
suffix start; the capture includes the leading `#`. -/
def matchColorAt (l : List Char) : Option (List Char) := do
  let r ← matchLit (chars "<metadata type=\"volume\" key=\"color\" value=\"#") l
  match r with
  | a :: b :: c :: d :: e :: f :: '"' :: _ =>
    if [a, b, c, d, e, f].all isHexDigit then some ('#' :: [a, b, c, d, e, f]) else none
  | _ => none

/-- All regex/substring tests `parse_slic3r_volumes` applies to one line, precomputed.
Outer `Option` = did the regex match; inner value = the `parse().ok()` of the capture
(digit-overflow makes it `none`). -/
structure LineFacts where
  objId : Option (Option ℕ)
  objExtLine : Bool
  objExt : Option (Option ℕ)
  volStart : Option (Option ℕ × Option ℕ)
  volExtLine : Bool
  volExt : Option (Option ℕ)
  volColor : Option (Option Srgba)
  volEnd : Bool
deriving DecidableEq, Repr

/-- Classification of one configuration line: every pattern of `parse_slic3r_volumes`
evaluated on it. -/
def classify (l : List Char) : LineFacts where
  objId := (scanFor matchObjectIdAt l).map parseUsize
  objExtLine :=
    containsStr (chars "type=\"object\"") l && containsStr (chars "key=\"extruder\"") l
  objExt := (scanFor matchObjectExtruderAt l).map parseUsize
  volStart := (scanFor matchVolumeAt l).map (fun p => (parseUsize p.1, parseUsize p.2))
  volExtLine :=
    containsStr (chars "type=\"volume\"") l && containsStr (chars "key=\"extruder\"") l
  volExt := (scanFor matchVolumeExtruderAt l).map parseUsize
  volColor := (scanFor matchColorAt l).map parse_hex_color_to_srgba
  volEnd := containsStr (chars "</volume>") l

/-- Mutable state of the `parse_slic3r_volumes` line loop, plus the result map
(`HashMap` modelled as an insertion-ordered association list; only lookups are
performed downstream). -/
structure SlState where
  current_object_id : Option ℕ
  object_extruder : Option ℕ
  current_volumes : List VolumeInfo
  in_volume : Bool
  current_first_id : Option ℕ
  current_last_id : Option ℕ
  current_extruder : Option ℕ
  current_color : Option Srgba
  object_volumes : List (ℕ × List VolumeInfo)
deriving DecidableEq, Repr

/-- `HashMap::insert`: replace the binding when the key exists, else append. -/
def insertAssoc (m : List (ℕ × List VolumeInfo)) (k : ℕ) (v : List VolumeInfo) :
    List (ℕ × List VolumeInfo) :=
  if m.any (fun p => p.1 == k) then m.map (fun p => if p.1 == k then (k, v) else p)
  else m ++ [(k, v)]

/-- One iteration of the `parse_slic3r_volumes` line loop: the sequence of
non-exclusive `if` blocks of the source, applied to the line's classification. -/
def sapply (extruder_colors : List Srgba) (st : SlState) (f : LineFacts) : SlState :=
  -- object-id line: flush the previous object's closed volumes, reset per-object state
  let st :=
    match f.objId with
    | some pid =>
      let ov :=
        match st.current_object_id with
        | some obj =>
          if st.current_volumes.isEmpty then st.object_volumes
          else insertAssoc st.object_volumes obj st.current_volumes
        | none => st.object_volumes
      { st with object_volumes := ov, current_object_id := pid, object_extruder := none,
                current_volumes := [], in_volume := false }
    | none => st
  -- object-level extruder
  let st :=
    if !st.in_volume && f.objExtLine then
      match f.objExt with
      | some pe => { st with object_extruder := pe }
      | none => st
    else st
  -- volume start: flush a previous still-open volume, then open the new one
  let st :=
    match f.volStart with
    | some (pf, pl) =>
      let vols : List VolumeInfo :=
        match st.in_volume, st.current_first_id, st.current_last_id with
        | true, some fid, some lid =>
          st.current_volumes ++
            [({ first_triangle_id := fid, last_triangle_id := lid,
                color := resolve_color st.current_color st.current_extruder
                          st.object_extruder extruder_colors } : VolumeInfo)]
        | _, _, _ => st.current_volumes
      { st with current_volumes := vols, in_volume := true, current_first_id := pf,
                current_last_id := pl, current_extruder := none, current_color := none }
    | none => st
  -- volume-level extruder
  let st :=
    if st.in_volume && f.volExtLine then
      match f.volExt with
      | some pe => { st with current_extruder := pe }
      | none => st
    else st
  -- inline volume color
  let st :=
    if st.in_volume then
      match f.volColor with
      | some pc => { st with current_color := pc }
      | none => st
    else st
  -- volume end
  if f.volEnd && st.in_volume then
    let vols : List VolumeInfo :=
      match st.current_first_id, st.current_last_id with
      | some fid, some lid =>
        st.current_volumes ++
          [({ first_triangle_id := fid, last_triangle_id := lid,
              color := resolve_color st.current_color st.current_extruder
                        st.object_extruder extruder_colors } : VolumeInfo)]
      | _, _ => st.current_volumes
    { st with current_volumes := vols, in_volume := false, current_first_id := none,
              current_last_id := none, current_extruder := none, current_color := none }
  else st

/-- Initial state of the metadata scan. -/
def initSl : SlState :=
  { current_object_id := none, object_extruder := none, current_volumes := [],
    in_volume := false, current_first_id := none, current_last_id := none,
    current_extruder := none, current_color := none, object_volumes := [] }

/-- The post-loop flush of `parse_slic3r_volumes` ("Don't forget the last object"):
record the final object's closed volumes when there are any. -/
def sfinalize (st : SlState) : List (ℕ × List VolumeInfo) :=
  match st.current_object_id with
  | some obj =>
    if st.current_volumes.isEmpty then st.object_volumes
    else insertAssoc st.object_volumes obj st.current_volumes
  | none => st.object_volumes

/-- `parse_slic3r_volumes`: fold the per-line state machine over the configuration
lines, then flush the final object. -/
def parse_slic3r_volumes (extruder_colors : List Srgba) (lines : List (List Char)) :
    List (ℕ × List VolumeInfo) :=
  sfinalize (lines.foldl (fun st l => sapply extruder_colors st (classify l)) initSl)

/-- A 3D vertex.  The archive stores f64 coordinates that the reader casts to f32
entry by entry; one exact rational stands for the value since the claims are about
which vertices are copied where, never about rounding. -/
structure Vertex where
  x : ℚ
  y : ℚ
  z : ℚ
deriving DecidableEq, Repr

instance : Inhabited Vertex := ⟨⟨0, 0, 0⟩⟩

/-- `threemf::Triangle`: three vertex indices. -/
structure Triangle where
  v1 : ℕ
  v2 : ℕ
  v3 : ℕ
deriving DecidableEq, Repr

/-- `threemf::Mesh`: a vertex array and a triangle array. -/
structure TMesh where
  vertices : List Vertex
  triangles : List Triangle
deriving DecidableEq, Repr

/-- `three_d::CpuMesh` as the parsers build it: positions plus flat index buffer. -/
structure CpuMesh where
  positions : List Vertex
  indices : List ℕ
deriving DecidableEq, Repr

/-- `Mat4::identity()`, stored as 16 column-major entries. -/
def mat4Identity : List ℚ := [1, 0, 0, 0, 0, 1, 0, 0, 0, 0, 1, 0, 0, 0, 0, 1]

/-- The build-item transform of `parse_3mf`: `Mat4::from_cols` of the 3MF 4x3 affine
entries (fourth component of the first three columns 0, of the last column 1);
a missing transform is the identity. -/
def buildItemTransform (t : Option (List ℚ)) : List ℚ :=
  match t with
  | some ts =>
    [ts.getD 0 0, ts.getD 1 0, ts.getD 2 0, 0,
     ts.getD 3 0, ts.getD 4 0, ts.getD 5 0, 0,
     ts.getD 6 0, ts.getD 7 0, ts.getD 8 0, 0,
     ts.getD 9 0, ts.getD 10 0, ts.getD 11 0, 1]
  | none => mat4Identity

/-- `struct MeshWithTransform`: one Part. -/
structure MeshWithTransform where
  mesh : CpuMesh
  transform : List ℚ
  color : Option Srgba
deriving DecidableEq, Repr

/-- Flatten one triangle to its three indices (`[a.v1, a.v2, a.v3]` in the source). -/
def triIndices (t : Triangle) : List ℕ := [t.v1, t.v2, t.v3]

/-- The volume-split loop of `parse_3mf` (src/parse_mesh.rs lines 167-207): for each
VolumeInfo of the object, copy the whole vertex array, and when
`last_triangle_id + 1` does not exceed the triangle count, push a Part whose index
buffer is `skip(first).take(end - first)` of the triangle list flattened, carrying
the range's color and the item's transform; otherwise push nothing for that range. -/
def volume_parts (mesh : TMesh) (transform : List ℚ) (vols : List VolumeInfo) :
    List MeshWithTransform :=
  vols.foldl
    (fun acc vol =>
      if vol.last_triangle_id + 1 ≤ mesh.triangles.length then
        acc ++ [{ mesh := { positions := mesh.vertices,
                            indices := ((mesh.triangles.drop vol.first_triangle_id).take
                                (vol.last_triangle_id + 1 - vol.first_triangle_id)).flatMap
                                triIndices },
                  transform := transform, color := vol.color }]
      else acc)
    []

/-- Modelled from the spec: one Part per range, whose position array is the entire
original vertex array and whose index buffer is the triangles from `first` to `last`
inclusive, flattened; a range whose last triangle index is at or beyond the mesh's
triangle count produces no Part. -/
def volume_parts_spec (mesh : TMesh) (transform : List ℚ) (vols : List VolumeInfo) :
    List MeshWithTransform :=
  vols.filterMap
    (fun vol =>
      if vol.last_triangle_id < mesh.triangles.length then
        some { mesh := { positions := mesh.vertices,
                         indices := ((mesh.triangles.take (vol.last_triangle_id + 1)).drop
                             vol.first_triangle_id).flatMap triIndices },
               transform := transform, color := vol.color }
      else none)

/-- The no-volume-info branch of `parse_3mf`: the whole mesh as one uncolored Part. -/
def whole_mesh_part (mesh : TMesh) (transform : List ℚ) : MeshWithTransform :=
  { mesh := { positions := mesh.vertices, indices := mesh.triangles.flatMap triIndices },
    transform := transform, color := none }

/-- One 3MF build item: an object reference and an optional 4x3 transform. -/
structure BuildItem where
  objectid : ℕ
  transform : Option (List ℚ)

/-- The build-item loop of `parse_3mf`: items whose object id owns no mesh are
skipped; with volume information the mesh is split per range, else emitted whole. -/
def build_parts (object_map : List (ℕ × TMesh)) (object_volumes : List (ℕ × List VolumeInfo))
    (items : List BuildItem) : List MeshWithTransform :=
  items.foldl
    (fun acc item =>
      match object_map.lookup item.objectid with
      | some mesh =>
        let transform := buildItemTransform item.transform
        match object_volumes.lookup item.objectid with
        | some vol_list => acc ++ volume_parts mesh transform vol_list
        | none => acc ++ [whole_mesh_part mesh transform]
      | none => acc)
    []

/-- One `wavefront_obj` vertex reference inside a shape; the reader consults only the
vertex index (`i.0`). -/
structure VTNIndex where
  vi : ℕ
deriving DecidableEq, Repr

/-- An OBJ shape primitive: only triangles are processed, everything else ignored. -/
inductive Primitive where
  | triangle (i0 i1 i2 : VTNIndex)
  | otherPrim
deriving DecidableEq, Repr

/-- One OBJ shape. -/
structure Shape where
  primitive : Primitive
deriving DecidableEq, Repr

/-- One geometry block of an OBJ object (shapes sharing a material). -/
structure Geometry where
  shapes : List Shape
deriving DecidableEq, Repr

/-- One OBJ object ("group"): its vertex table and geometry blocks. -/
structure ObjObject where
  vertices : List Vertex
  geometry : List Geometry
deriving DecidableEq, Repr

/-- `wavefront_obj::obj::ObjSet`. -/
structure ObjSet where
  objects : List ObjObject
deriving DecidableEq, Repr

/-- The `process` closure of `parse_obj_inner`: look the source vertex index up in
the per-geometry dedup map, append the vertex on first use, push the local index. -/
def processIdx (vertices : List Vertex) (s : List (ℕ × ℕ) × List Vertex × List ℕ)
    (i : VTNIndex) : List (ℕ × ℕ) × List Vertex × List ℕ :=
  match s.1.lookup i.vi with
  | some idx => (s.1, s.2.1, s.2.2 ++ [idx])
  | none =>
    ((i.vi, s.2.1.length) :: s.1, s.2.1 ++ [vertices.getD i.vi default],
     s.2.2 ++ [s.2.1.length])

/-- Per-object mesh construction of `parse_obj_inner`: positions and indices
accumulate across the object's geometry blocks, the dedup map is reset per block;
non-triangle primitives are skipped. -/
def buildObjectMesh (o : ObjObject) : CpuMesh :=
  let pi :=
    o.geometry.foldl
      (fun pi g =>
        let s :=
          g.shapes.foldl
            (fun s shape =>
              match shape.primitive with
              | .triangle i0 i1 i2 =>
                processIdx o.vertices (processIdx o.vertices (processIdx o.vertices s i0) i1) i2
              | .otherPrim => s)
            ([], pi.1, pi.2)
        (s.2.1, s.2.2))
      ([], [])
  { positions := pi.1, indices := pi.2 }

/-- `parse_obj_inner`: build one mesh per OBJ object, sort descending by index count
(`sort_by(|a, b| a.indices.len().cmp(&b.indices.len()).reverse())`, a stable sort),
fail when the list is empty, else return a copy of the first (largest) mesh. -/
def parse_obj_inner (obj : ObjSet) : Except PError CpuMesh :=
  match (obj.objects.map buildObjectMesh).mergeSort
      (fun a b => Nat.ble b.indices.length a.indices.length) with
  | [] => .error (PError.meshConvertError "No meshes found in 3mf model")
  | m :: _ => .ok { positions := m.positions, indices := m.indices }

/-- `ThumbnailError` of src/lib.rs. -/
inductive ThumbnailError where
  | io (msg : String)
  | parse (msg : String)
  | other (msg : String)
deriving DecidableEq, Repr

/-- `ParseError::to_string` of src/parse_mesh.rs. -/
def perrString : PError → String
  | .readError s => "Failed to read file: " ++ s
  | .parseError s => "Failed to interpret model: " ++ s
  | .meshConvertError s => "Failed to convert mesh from model: " ++ s

/-- The geometry-parse-failure branch of `generate_thumbnail_for_file_with_context`
(src/lib.rs lines 400-420).  The embedded-thumbnail extraction is external I/O; its
outcome is a parameter. -/
def handle_parse_error_file (fallback_3mf prefer_3mf is3mf : Bool) (e : PError)
    (extract : Except String Unit) : Except ThumbnailError Unit :=
  if fallback_3mf && is3mf && !prefer_3mf then
    match extract with
    | .error _ => .error (ThumbnailError.parse (perrString e))
    | .ok _ => .ok ()
  else .error (ThumbnailError.parse (perrString e))

/-- The same branch of `generate_thumbnail_bytes_for_file_with_context`
(src/lib.rs lines 232-248): a successful fallback returns its bytes, otherwise the
stringified geometry error is returned. -/
def handle_parse_error_bytes (fallback_3mf prefer_3mf is3mf : Bool) (e : PError)
    (extract : Except String (List ℕ)) : Except ThumbnailError (List ℕ) :=
  if fallback_3mf && is3mf && !prefer_3mf then
    match extract with
    | .ok bytes => .ok bytes
    | .error _ => .error (ThumbnailError.parse (perrString e))
  else .error (ThumbnailError.parse (perrString e))

/-- `parse_hex_color` of src/lib.rs, i.e. `u32::from_str_radix(s, 16)`: an optional
leading `+`, then at least one hex digit; overflow past `u32::MAX` fails. -/
def parse_hex_color (s : List Char) : Option ℕ :=
  let s1 := match s with
            | '+' :: r => r
            | r => r
  if !s1.isEmpty && s1.all isHexDigit then
    if hexVal s1 < 2 ^ 32 then some (hexVal s1) else none
  else none

/-- The default-color decode of `build_models`. -/
def decodeColor (v : ℕ) : Srgba :=
  { r := (v >>> 16) &&& 255, g := (v >>> 8) &&& 255, b := v &&& 255, a := 255 }

/-- The albedo assignment of `build_models` (src/lib.rs lines 484-514): the
caller-supplied default color string is parsed and unwrapped — `none` models the
unwrap panic on a non-hex string — and each Part without a resolved color receives
the decoded default. -/
def build_models_albedos (meshes : List MeshWithTransform) (color : List Char) :
    Option (List Srgba) :=
  match parse_hex_color color with
  | none => none
  | some v => some (meshes.map (fun m => m.color.getD (decodeColor v)))

/-- A concrete two-group OBJ sample: the first group contributes 3 triangle
indices, the second 6. -/
def objSample : ObjSet :=
  { objects :=
      [{ vertices := [{ x := 0, y := 0, z := 0 }],
         geometry := [{ shapes := [{ primitive := .triangle ⟨0⟩ ⟨0⟩ ⟨0⟩ }] }] },
       { vertices := [{ x := 0, y := 0, z := 0 }, { x := 1, y := 0, z := 0 }],
         geometry := [{ shapes := [{ primitive := .triangle ⟨0⟩ ⟨1⟩ ⟨0⟩ },
                                   { primitive := .triangle ⟨1⟩ ⟨0⟩ ⟨1⟩ }] }] }] }

/-- The mesh built from `objSample`'s dominant (second) group. -/
def objSampleBig : CpuMesh :=
  { positions := [{ x := 0, y := 0, z := 0 }, { x := 1, y := 0, z := 0 }],
    indices := [0, 1, 0, 1, 0, 1] }

/-! ## Helper lemmas -/

/-- A successful `takeRun` capture is the greedy prefix run. -/
theorem takeRun_some {p : Char → Bool} {l d r : List Char}
    (h : takeRun p l = some (d, r)) : d = l.takeWhile p ∧ r = l.dropWhile p := by
  by_cases he : (l.takeWhile p).isEmpty
  · simp [takeRun, he] at h
  · simp [takeRun, he] at h
    exact ⟨h.1.symm, h.2.symm⟩

/-- Every character of a `takeRun` capture satisfies the run's class. -/
theorem takeRun_mem {p : Char → Bool} {l d r : List Char}
    (h : takeRun p l = some (d, r)) : ∀ c ∈ d, p c = true := by
  intro c hc
  rw [(takeRun_some h).1] at hc
  exact List.mem_takeWhile_imp hc

/-- A property of matches at a position lifts through the leftmost-match search. -/
theorem scanFor_prop {α : Type} {f : List Char → Option α} {P : α → Prop}
    (hf : ∀ l r, f l = some r → P r) :
    ∀ l r, scanFor f l = some r → P r := by
  intro l
  induction l with
  | nil => intro r h; exact hf [] r (by simpa [scanFor] using h)
  | cons c cs ih =>
    intro r h
    rw [scanFor] at h
    cases hh : f (c :: cs) with
    | some v =>
      rw [hh] at h
      simp only [Option.orElse] at h
      exact hf (c :: cs) r (hh.trans h)
    | none =>
      rw [hh] at h
      simp only [Option.orElse] at h
      exact ih r h

/-- Both captures of the extrusion pattern `X([\d.]+)\s+Y([\d.]+)\s+E` lie in the
class `[\d.]`. -/
theorem matchXYEAt_digits {l : List Char} {d : List Char × List Char}
    (h : matchXYEAt l = some d) :
    (∀ c ∈ d.1, isDigitDot c = true) ∧ (∀ c ∈ d.2, isDigitDot c = true) := by
  unfold matchXYEAt at h
  split at h
  next r =>
    split at h
    next => exact absurd h (by simp)
    next d1 r1 h1 =>
      split at h
      next => exact absurd h (by simp)
      next w1 r2 h2 =>
        split at h
        next r3 =>
          split at h
          next => exact absurd h (by simp)
          next d2 r4 h3 =>
            split at h
            next => exact absurd h (by simp)
            next w2 r5 h4 =>
              split at h
              next =>
                injection h with h'
                subst h'
                exact ⟨takeRun_mem h1, takeRun_mem h3⟩
              next => exact absurd h (by simp)
        next => exact absurd h (by simp)
  next => exact absurd h (by simp)

/-- Both captures of the travel pattern `X([\d.]+)\s+Y([\d.]+)` lie in `[\d.]`. -/
theorem matchXYAt_digits {l : List Char} {d : List Char × List Char}
    (h : matchXYAt l = some d) :
    (∀ c ∈ d.1, isDigitDot c = true) ∧ (∀ c ∈ d.2, isDigitDot c = true) := by
  unfold matchXYAt at h
  split at h
  next r =>
    split at h
    next => exact absurd h (by simp)
    next d1 r1 h1 =>
      split at h
      next => exact absurd h (by simp)
      next w1 r2 h2 =>
        split at h
        next r3 =>
          split at h
          next => exact absurd h (by simp)
          next d2 r4 h3 =>
            injection h with h'
            subst h'
            exact ⟨takeRun_mem h1, takeRun_mem h3⟩
        next => exact absurd h (by simp)
  next => exact absurd h (by simp)

/-- The capture of the pattern `Z([\d.]+)` lies in `[\d.]`. -/
theorem matchZAt_digits {l : List Char} {d : List Char}
    (h : matchZAt l = some d) : ∀ c ∈ d, isDigitDot c = true := by
  unfold matchZAt at h
  split at h
  next r =>
    split at h
    next => exact absurd h (by simp)
    next d1 r1 h1 =>
      injection h with h'
      subst h'
      exact takeRun_mem h1
  next => exact absurd h (by simp)

/-! ## Claim theorems -/

/-- C3: the toolpath reconstructor, on the spec's 3-segment example path (start point
placed at the origin by an extruding move, extruding move to (1,0), travel to (1,1),
extruding move to (2,1)), emits tube segments exactly for segments 1 and 3 — in
general, any collected point sequence drawn-drawn-travel-drawn yields exactly the two
tubes around the travel gap — and every scan that collects fewer than three points
fails with `ParseError`. -/
theorem gcode_example_and_min_points :
    (∀ a b c d : ℚ × ℚ × ℚ,
        segmentsOf [{ v := a, use_line := true }, { v := b, use_line := true },
                    { v := c, use_line := false }, { v := d, use_line := true }] =
          [(a, b), (c, d)]) ∧
    parse_gcode_inner gcodeExample3 =
      .ok [((0, 0, 0), (-1, 0, 0)), ((-1, 0, 1), (-2, 0, 1))] ∧
    (∀ (lines : List (List Char)) (st : GState) (entries : List GPoint),
        gscan initG lines = .ok (st, entries) → entries.length ≤ 2 →
        parse_gcode_inner lines =
          .error (PError.parseError "Gcode file contains no move instructions")) := by
  refine ⟨?_, ?_, ?_⟩
  · intro a b c d
    rfl
  · rfl
  · intro lines st entries h1 h2
    unfold parse_gcode_inner
    rw [h1]
    simp [h2]

/-- Witness for C3: a file with a single move collects one point and is rejected
with a `ParseError`. -/
theorem gcode_example_and_min_points_witness :
    parse_gcode_inner [chars "G1 X1 Y1 E1"] =
      .error (PError.parseError "Gcode file contains no move instructions") :=
  gcode_example_and_min_points.2.2 [chars "G1 X1 Y1 E1"]
    { x := 1, y := 1, z := 0, pos_dirty := false }
    [{ v := (-1, 0, 1), use_line := true }] rfl (by decide)

/-- C4 counterexample: the line `G1 X2 Y1 Z5 E1` carries X, Y, a Z component and the
extrusion marker E, and the flag is set, yet the scanner emits no anchor and no drawn
point at all: the Z text between the Y coordinate and the E defeats the extrusion
pattern `X([\d.]+)\s+Y([\d.]+)\s+E`, so the line is handled as a travel move (position
updated, flag left set), not as the claim's anchor-plus-drawn-point emission. -/
theorem gcode_anchor_counterexample :
    gstep { x := 1, y := 1, z := 0, pos_dirty := true } (chars "G1 X2 Y1 Z5 E1") =
      .ok ({ x := 2, y := 1, z := 5, pos_dirty := true }, []) ∧
    ¬ gstep { x := 1, y := 1, z := 0, pos_dirty := true } (chars "G1 X2 Y1 Z5 E1") =
        .ok ({ x := 2, y := 1, z := 5, pos_dirty := false },
             [{ v := (-1, 5, 1), use_line := false },
              { v := (-2, 5, 1), use_line := true }]) := by
  refine ⟨rfl, ?_⟩
  intro h
  rw [show gstep { x := 1, y := 1, z := 0, pos_dirty := true } (chars "G1 X2 Y1 Z5 E1") =
        .ok ({ x := 2, y := 1, z := 5, pos_dirty := true }, ([] : List GPoint)) from rfl] at h
  injection h with h'
  exact absurd h' (by decide)

/-- C4 amended: on a motion line that the extrusion pattern `X..Y..E` actually
matches (X-number, whitespace, Y-number, whitespace, E, in that order) while the
unsafe flag is set, the Z capture is applied to `z` first; the non-drawn anchor is
then emitted at the previous (x, y) but with the already-updated z, the flag is
cleared, and the drawn point is emitted at the new position with the same z.  Lines
carrying X, Y, E and a Z placed between the Y value and the E do not match the
extrusion pattern and are handled as travel moves instead. -/
theorem gcode_anchor_amended (st : GState) (l sx sy : List Char) (nx ny nz : ℚ)
    (hg : startsG l = true) (hd : st.pos_dirty = true)
    (hxy : findXYE l = some (sx, sy))
    (hx : parseNum sx = some nx) (hy : parseNum sy = some ny)
    (hz : zAfter st l = some nz) :
    gstep st l =
      .ok ({ x := nx, y := ny, z := nz, pos_dirty := false },
           [{ v := (-st.x, nz, st.y), use_line := false },
            { v := (-nx, nz, ny), use_line := true }]) := by
  unfold zAfter at hz
  unfold gstep
  cases hfz : findZ l with
  | some zs =>
    rw [hfz] at hz
    have hz2 : parseNum zs = some nz := hz
    simp [hg, hfz, hz2, hxy, hx, hy, hd]
  | none =>
    rw [hfz] at hz
    have hz2 : st.z = nz := by injection hz
    simp [hg, hfz, hxy, hx, hy, hd, hz2]

/-- Witness for C4's amended theorem: a Z placed before the X/Y pair keeps the
extrusion pattern intact; the anchor carries the line's new z = 5, not the old 0. -/
theorem gcode_anchor_amended_witness :
    gstep { x := 1, y := 1, z := 0, pos_dirty := true } (chars "G1 Z5 X2 Y1 E") =
      .ok ({ x := 2, y := 1, z := 5, pos_dirty := false },
           [{ v := (-1, 5, 1), use_line := false },
            { v := (-2, 5, 1), use_line := true }]) :=
  gcode_anchor_amended { x := 1, y := 1, z := 0, pos_dirty := true }
    (chars "G1 Z5 X2 Y1 E") (chars "2") (chars "1") 2 1 5 rfl rfl rfl (by decide)
    (by decide) (by decide)

/-- C5 counterexample: the stream `G1 X0 Y0 E1`, `M104 S200`, `G1 X1 Y0 E1`,
`G1 X2 Y0 E1` contains a line outside the two motion mnemonics, yet the two motion
lines after it are still collected: the parse succeeds with two tube segments built
from points gathered after the `M104` line, instead of stopping the scan there
(which would have left one point and a `ParseError`). -/
theorem gcode_stop_counterexample :
    parse_gcode_inner
        [chars "G1 X0 Y0 E1", chars "M104 S200", chars "G1 X1 Y0 E1",
         chars "G1 X2 Y0 E1"] =
      .ok [((0, 0, 0), (-1, 0, 0)), ((-1, 0, 0), (-2, 0, 0))] := rfl

/-- C5 amended: a line outside the `G0`/`G1` mnemonics does not stop the scan; it is
ignored — no point is collected from it and the state is unchanged — and scanning
continues with the remaining lines.  No end-of-motion-section marker exists in this
scanner (the `EXECUTABLE_BLOCK_START` early exit belongs to the embedded-thumbnail
extractor of src/lib.rs, not to `parse_gcode_inner`). -/
theorem gcode_skip_amended (st : GState) (l : List Char) (ls : List (List Char))
    (h : startsG l = false) :
    gscan st (l :: ls) = gscan st ls := by
  have hstep : gstep st l = .ok (st, []) := by simp [gstep, h]
  cases hres : gscan st ls with
  | error e => simp [gscan, hstep, hres]
  | ok p =>
    cases p with
    | mk st2 ps => simp [gscan, hstep, hres]

/-- Witness for C5's amended theorem: dropping a non-motion line leaves the scan of
the rest untouched. -/
theorem gcode_skip_amended_witness :
    gscan initG [chars "M104 S200", chars "G1 X1 Y1 E1"] =
      gscan initG [chars "G1 X1 Y1 E1"] :=
  gcode_skip_amended initG (chars "M104 S200") [chars "G1 X1 Y1 E1"] rfl

/-- C9 counterexample: on the G1 line `G1 X1 Y1 Z-5 E1`, whose Z value has a leading
minus sign, the stored position IS updated (to x = 1, y = 1) and the unsafe flag IS
set: only the Z pattern fails, the X/Y travel pattern still fires (the `Z-5` text
also defeats the `X..Y..E` extrusion pattern).  The claim asserted no update and no
flag for every such line. -/
theorem gcode_negative_coordinate_counterexample :
    gstep initG (chars "G1 X1 Y1 Z-5 E1") =
      .ok ({ x := 1, y := 1, z := 0, pos_dirty := true }, []) ∧
    ({ x := 1, y := 1, z := 0, pos_dirty := true } : GState) ≠ initG :=
  ⟨rfl, by decide⟩

/-- C9 amended: the coordinate patterns capture only characters of the class `[\d.]`,
so a capture never contains a minus sign — a coordinate written with a leading minus
is never parsed as that coordinate.  A line whose single X run is negative (or whose
Y run is) matches neither X/Y pattern and contributes nothing: no point, no position
update, no flag.  A negative Z only leaves `z` un-updated; the X/Y handling of the
same line proceeds independently (see the last conjunct: position updated, flag
set, z unchanged). -/
theorem gcode_unsigned_patterns_amended :
    (∀ (l : List Char) (d : List Char × List Char), findXYE l = some d →
        (∀ c ∈ d.1, isDigitDot c = true) ∧ (∀ c ∈ d.2, isDigitDot c = true)) ∧
    (∀ (l : List Char) (d : List Char × List Char), findXY l = some d →
        (∀ c ∈ d.1, isDigitDot c = true) ∧ (∀ c ∈ d.2, isDigitDot c = true)) ∧
    (∀ (l sz : List Char), findZ l = some sz → ∀ c ∈ sz, isDigitDot c = true) ∧
    gstep initG (chars "G1 X-1 Y2 E1") = .ok (initG, []) ∧
    gstep initG (chars "G1 X1 Y1 Z-5 E1") =
      .ok ({ x := 1, y := 1, z := 0, pos_dirty := true }, []) := by
  refine ⟨?_, ?_, ?_, rfl, rfl⟩
  · intro l d h
    exact scanFor_prop (fun l r hr => matchXYEAt_digits hr) l d h
  · intro l d h
    exact scanFor_prop (fun l r hr => matchXYAt_digits hr) l d h
  · intro l sz h
    exact scanFor_prop (fun l r hr => matchZAt_digits hr) l sz h

/-- Witness for C9's amended theorem: the captures of `X1` on a concrete matched
line lie in the digit/dot class. -/
theorem gcode_unsigned_patterns_amended_witness : isDigitDot '1' = true :=
  (gcode_unsigned_patterns_amended.1 (chars "G1 X1 Y2 E1") (chars "1", chars "2")
    (by decide)).1 '1' (by decide)

/-- C2 counterexample: an object with object-extruder 1, a volume with extruder 2
and no inline color, against a one-entry color table.  The claim's rule resolves the
out-of-range volume extruder by falling back to the object extruder's entry (red);
the code's rule (`current_extruder.or(object_extruder).and_then(lookup)`) performs a
single lookup on the volume extruder, which fails, so the volume gets no color. -/
theorem slic3r_color_priority_counterexample :
    parse_slic3r_volumes [{ r := 255, g := 0, b := 0, a := 255 }]
        [chars "<object id=\"1\" type=\"model\">",
         chars "  <metadata type=\"object\" key=\"extruder\" value=\"1\"/>",
         chars "  <volume firstid=\"0\" lastid=\"5\">",
         chars "   <metadata type=\"volume\" key=\"extruder\" value=\"2\"/>",
         chars "  </volume>"] =
      [(1, [{ first_triangle_id := 0, last_triangle_id := 5, color := none }])] ∧
    resolve_color_claimed none (some 2) (some 1)
        [{ r := 255, g := 0, b := 0, a := 255 }] =
      some { r := 255, g := 0, b := 0, a := 255 } ∧
    resolve_color none (some 2) (some 1) [{ r := 255, g := 0, b := 0, a := 255 }] =
      none :=
  ⟨rfl, by decide, by decide⟩

/-- C2 amended: the volume-level extruder, when one was parsed, preempts the
object-level one entirely — the single table lookup uses it even when it is zero or
out of the table's range, in which case the volume simply gets no color; the
object-level extruder's entry is consulted only when no volume-level extruder was
parsed at all.  (The "in particular" part of the claim stands: with a valid volume
extruder E2 the resolved color is table[E2], never table[E1].) -/
theorem slic3r_color_priority_amended (cc : Option Srgba) (ce oe : Option ℕ)
    (table : List Srgba) :
    resolve_color cc ce oe table = resolve_color_amended cc ce oe table := by
  cases cc <;> cases ce <;> cases oe <;> rfl

/-- C6 counterexample: a stream that ends while the second volume block (range 2-3)
is still open.  The claim requires the dangling volume to be flushed, giving two
volumes for object 1; the code records only the closed volume 0-1. -/
theorem slic3r_dangling_volume_counterexample :
    parse_slic3r_volumes []
        [chars "<object id=\"1\" type=\"model\">",
         chars " <volume firstid=\"0\" lastid=\"1\">",
         chars " </volume>",
         chars " <volume firstid=\"2\" lastid=\"3\">"] =
      [(1, [{ first_triangle_id := 0, last_triangle_id := 1, color := none }])] ∧
    ([({ first_triangle_id := 0, last_triangle_id := 1, color := none } : VolumeInfo)] :
        List VolumeInfo) ≠
      [{ first_triangle_id := 0, last_triangle_id := 1, color := none },
       { first_triangle_id := 2, last_triangle_id := 3, color := none }] :=
  ⟨rfl, by decide⟩

/-- C6 amended: at end of stream only the final object's list of already-closed
volumes is recorded in the result map; a volume block still open when the stream ends
is discarded, not flushed.  (An open volume is flushed only when the next volume
block starts — the claim's premise "no subsequent volume marker" is exactly the
discarded case.)  Stated over any four lines with the given classifications: an
object header, a volume open/close pair, and a trailing volume header left open. -/
theorem slic3r_dangling_flush_amended (lobj lvol1 lend lvol2 : List Char)
    (oid f1 l1 f2 l2 : ℕ) (table : List Srgba)
    (h1 : classify lobj =
      { objId := some (some oid), objExtLine := false, objExt := none, volStart := none,
        volExtLine := false, volExt := none, volColor := none, volEnd := false })
    (h2 : classify lvol1 =
      { objId := none, objExtLine := false, objExt := none,
        volStart := some (some f1, some l1), volExtLine := false, volExt := none,
        volColor := none, volEnd := false })
    (h3 : classify lend =
      { objId := none, objExtLine := false, objExt := none, volStart := none,
        volExtLine := false, volExt := none, volColor := none, volEnd := true })
    (h4 : classify lvol2 =
      { objId := none, objExtLine := false, objExt := none,
        volStart := some (some f2, some l2), volExtLine := false, volExt := none,
        volColor := none, volEnd := false }) :
    parse_slic3r_volumes table [lobj, lvol1, lend, lvol2] =
      [(oid, [{ first_triangle_id := f1, last_triangle_id := l1, color := none }])] := by
  unfold parse_slic3r_volumes
  simp only [List.foldl_cons, List.foldl_nil, h1, h2, h3, h4]
  simp [sapply, sfinalize, initSl, insertAssoc, resolve_color]

/-- Witness for C6's amended theorem, on concrete configuration lines: the closed
volume 0-4 of object 7 is recorded, the dangling open volume 5-9 is dropped. -/
theorem slic3r_dangling_flush_witness :
    parse_slic3r_volumes []
        [chars "<object id=\"7\" type=\"model\">",
         chars " <volume firstid=\"0\" lastid=\"4\">",
         chars " </volume>",
         chars " <volume firstid=\"5\" lastid=\"9\">"] =
      [(7, [{ first_triangle_id := 0, last_triangle_id := 4, color := none }])] :=
  slic3r_dangling_flush_amended (chars "<object id=\"7\" type=\"model\">")
    (chars " <volume firstid=\"0\" lastid=\"4\">") (chars " </volume>")
    (chars " <volume firstid=\"5\" lastid=\"9\">") 7 0 4 5 9 [] rfl rfl rfl rfl

/-- A conditional-append fold is a `filterMap`. -/
theorem foldl_guard_push {α β : Type} (c : α → Prop) [DecidablePred c] (val : α → β) :
    ∀ (l : List α) (acc : List β),
      l.foldl (fun a v => if c v then a ++ [val v] else a) acc =
        acc ++ l.filterMap (fun v => if c v then some (val v) else none) := by
  intro l
  induction l with
  | nil => intro acc; simp
  | cons v vs ih =>
    intro acc
    by_cases h : c v
    · simp [h, ih]
    · simp [h, ih]

/-- C1: the packaging-format volume split.  The split loop of `parse_3mf` emits, for
each VolumeRange of a build item's mesh, exactly one Part whose position array is the
entire original vertex array and whose index buffer is the triangles from `first` to
`last` inclusive flattened to three indices each, carrying the range's color and the
item's transform; a range whose last triangle index is at or beyond the mesh's
triangle count is silently dropped (no Part, no error). -/
theorem threeMF_volume_split_spec (mesh : TMesh) (transform : List ℚ)
    (vols : List VolumeInfo) :
    volume_parts mesh transform vols = volume_parts_spec mesh transform vols := by
  unfold volume_parts volume_parts_spec
  rw [foldl_guard_push
      (fun vol : VolumeInfo => vol.last_triangle_id + 1 ≤ mesh.triangles.length)
      (fun vol : VolumeInfo =>
        ({ mesh := { positions := mesh.vertices,
                     indices := ((mesh.triangles.drop vol.first_triangle_id).take
                         (vol.last_triangle_id + 1 - vol.first_triangle_id)).flatMap
                         triIndices },
           transform := transform, color := vol.color } : MeshWithTransform)) vols []]
  rw [List.nil_append]
  apply List.filterMap_congr
  intro vol _
  by_cases hb : vol.last_triangle_id < mesh.triangles.length
  · rw [if_pos (by omega : vol.last_triangle_id + 1 ≤ mesh.triangles.length), if_pos hb,
       List.drop_take]
  · rw [if_neg (by omega : ¬ vol.last_triangle_id + 1 ≤ mesh.triangles.length), if_neg hb]

/-- C7 counterexample: geometry parsing failed with a parse error "boom", the 3MF
fallback is configured (and prefer mode off) and the fallback also fails; the error
returned is the stringified original geometry error, not the fallback's error. -/
theorem fallback_error_counterexample :
    handle_parse_error_file true false true (PError.parseError "boom")
        (.error "fallback failed") =
      .error (ThumbnailError.parse "Failed to interpret model: boom") ∧
    ThumbnailError.parse "Failed to interpret model: boom" ≠
      ThumbnailError.other "fallback failed" :=
  ⟨rfl, by decide⟩

/-- C7 amended: in both the file-writing and the bytes variant, when the fallback is
configured (and prefer mode off, on a .3mf name) and also fails, the ORIGINAL
geometry-parse error propagates (stringified into `ThumbnailError::Parse`) and the
fallback's own error is discarded; only a successful fallback suppresses the
geometry error.  When the fallback is unused the geometry error propagates
verbatim. -/
theorem fallback_error_amended :
    (∀ (fb pf i3 : Bool) (e : PError) (ex : Except String Unit),
        handle_parse_error_file fb pf i3 e ex =
          if fb && i3 && !pf && ex.isOk then .ok ()
          else .error (ThumbnailError.parse (perrString e))) ∧
    (∀ (fb pf i3 : Bool) (e : PError) (ex : Except String (List ℕ)),
        handle_parse_error_bytes fb pf i3 e ex =
          match ex with
          | .ok bytes =>
            if fb && i3 && !pf then .ok bytes
            else .error (ThumbnailError.parse (perrString e))
          | .error _ => .error (ThumbnailError.parse (perrString e))) := by
  constructor
  · intro fb pf i3 e ex
    cases fb <;> cases pf <;> cases i3 <;> cases ex <;>
      simp [handle_parse_error_file, Except.isOk, Except.toBool]
  · intro fb pf i3 e ex
    cases fb <;> cases pf <;> cases i3 <;> cases ex <;>
      simp [handle_parse_error_bytes]

/-- C8 counterexample: an OBJ file with one group that contributes zero triangles.
The claim requires a `MeshConvertError`; the code only errors on zero groups, so it
returns the empty group as the sole Part (an empty mesh, not an error). -/
theorem obj_empty_groups_counterexample :
    parse_obj_inner { objects := [{ vertices := [], geometry := [] }] } =
      .ok { positions := [], indices := [] } ∧
    (Except.ok { positions := [], indices := [] } : Except PError CpuMesh) ≠
      .error (PError.meshConvertError "No meshes found in 3mf model") := by
  constructor
  · unfold parse_obj_inner
    rw [show ({ objects := [{ vertices := [], geometry := [] }] } : ObjSet).objects.map
          buildObjectMesh = [{ positions := [], indices := [] }] from rfl,
       List.mergeSort_singleton]
  · exact fun h => Except.noConfusion h

/-- C8 amended: `parse_obj_inner` fails (with `MeshConvertError`) iff the file
contains zero groups; otherwise the returned sole Part is one of the built groups
and its triangle-index count is greatest among all groups (an all-empty-groups file
thus yields an empty Part, not an error). -/
theorem obj_reader_amended :
    (∀ obj : ObjSet, (parse_obj_inner obj).isOk = false ↔ obj.objects = []) ∧
    (∀ (obj : ObjSet) (m : CpuMesh), parse_obj_inner obj = .ok m →
        m ∈ obj.objects.map buildObjectMesh ∧
        ∀ g ∈ obj.objects.map buildObjectMesh, g.indices.length ≤ m.indices.length) := by
  have htrans : ∀ a b c : CpuMesh, Nat.ble b.indices.length a.indices.length = true →
      Nat.ble c.indices.length b.indices.length = true →
      Nat.ble c.indices.length a.indices.length = true := by
    intro a b c h1 h2
    rw [Nat.ble_eq] at h1 h2 ⊢
    omega
  have htotal : ∀ a b : CpuMesh,
      (Nat.ble b.indices.length a.indices.length ||
        Nat.ble a.indices.length b.indices.length) = true := by
    intro a b
    rw [Bool.or_eq_true, Nat.ble_eq, Nat.ble_eq]
    omega
  constructor
  · intro obj
    unfold parse_obj_inner
    cases hms : (obj.objects.map buildObjectMesh).mergeSort
        (fun a b => Nat.ble b.indices.length a.indices.length) with
    | nil =>
      have hp := List.mergeSort_perm (obj.objects.map buildObjectMesh)
        (fun a b => Nat.ble b.indices.length a.indices.length)
      rw [hms] at hp
      have hgroups : obj.objects.map buildObjectMesh = [] := hp.symm.eq_nil
      simp [Except.isOk, Except.toBool, List.map_eq_nil_iff.mp hgroups]
    | cons m0 rest =>
      constructor
      · intro habs
        simp [Except.isOk, Except.toBool] at habs
      · intro hobj
        rw [hobj] at hms
        simp at hms
  · intro obj m h
    unfold parse_obj_inner at h
    cases hms : (obj.objects.map buildObjectMesh).mergeSort
        (fun a b => Nat.ble b.indices.length a.indices.length) with
    | nil =>
      rw [hms] at h
      exact absurd h (fun hh => Except.noConfusion hh)
    | cons m0 rest =>
      rw [hms] at h
      injection h with h'
      have hm : m0 = m := h'
      subst hm
      have hp := List.mergeSort_perm (obj.objects.map buildObjectMesh)
        (fun a b => Nat.ble b.indices.length a.indices.length)
      rw [hms] at hp
      constructor
      · exact hp.mem_iff.mp (List.mem_cons_self m0 rest)
      · intro g hg
        have hsorted := List.sorted_mergeSort htrans htotal
          (obj.objects.map buildObjectMesh)
        rw [hms] at hsorted
        have hg' : g ∈ m0 :: rest := hp.mem_iff.mpr hg
        rcases List.mem_cons.mp hg' with hgm | hgr
        · rw [hgm]
        · have := List.rel_of_pairwise_cons hsorted hgr
          rw [Nat.ble_eq] at this
          exact this

/-- Witness for C8's amended theorem: a two-group file (3 and 6 triangle indices);
the returned Part — the dominant 6-index mesh — is one of the two built groups. -/
theorem obj_reader_amended_witness :
    objSampleBig ∈ objSample.objects.map buildObjectMesh :=
  (obj_reader_amended.2 objSample objSampleBig
    (by
      unfold parse_obj_inner
      rw [show objSample.objects.map buildObjectMesh =
            [{ positions := [{ x := 0, y := 0, z := 0 }], indices := [0, 0, 0] },
             objSampleBig] from rfl]
      rw [show ([({ positions := [{ x := 0, y := 0, z := 0 }],
                    indices := [0, 0, 0] } : CpuMesh), objSampleBig].mergeSort
            (fun a b => Nat.ble b.indices.length a.indices.length)) =
          [objSampleBig,
           { positions := [{ x := 0, y := 0, z := 0 }], indices := [0, 0, 0] }] from by
        simp [List.mergeSort, objSampleBig]])).1

/-- C10: `build_models` requires the caller-supplied default color string to be a
valid hexadecimal integer.  Under that precondition the unwrap cannot fail and every
Part with no resolved color gets the decoded RGB; but on a non-hexadecimal string
such as "red" the parse fails and thumbnail generation panics at the unwrap
(modelled by `none`) instead of returning a `ThumbnailError`. -/
theorem default_color_unwrap :
    (∀ (s : List Char) (v : ℕ) (ms : List MeshWithTransform),
        parse_hex_color s = some v →
        build_models_albedos ms s =
          some (ms.map (fun m => m.color.getD (decodeColor v)))) ∧
    parse_hex_color (chars "red") = none ∧
    build_models_albedos [] (chars "red") = none := by
  refine ⟨?_, rfl, rfl⟩
  intro s v ms h
  unfold build_models_albedos
  rw [h]

/-- Witness for C10: the default option string "DDDDDD" parses (to 0xDDDDDD) and
model building succeeds. -/
theorem default_color_unwrap_witness :
    build_models_albedos [] (chars "DDDDDD") = some [] :=
  default_color_unwrap.1 (chars "DDDDDD") 14540253 [] (by decide)

end MeshThumb
